import Mathlib

/-!
# ReGreet greetd protocol state machine and session controller: a shallow embedding

This file embeds, in Lean, the greetd IPC protocol state machine of
`src/greetd/mod.rs` / `src/greetd/async_sock_impl.rs`, the session controller of
`src/gui/component/greetd_controls.rs`, and the selection cache of `src/cache.rs`,
and proves the stated properties about them.

The socket implementation is generic over the underlying duplex channel
(`RW: TokioRW` in the source); here the channel is an abstract type parameter
`Conn`. Each protocol operation performs exactly one request/response exchange
over the channel; the channel's behaviour for that exchange (a write failure,
a read failure, or a daemon reply) is supplied as an explicit `IOEvent`
argument, which plays the role of the daemon plus transport nondeterminism.
Rust `unreachable!` panics are modelled with `Option`, `none` meaning a panic.
-/

namespace ReGreet

/-! ## Wire messages (the `greetd_ipc` crate types used by the source) -/

/-- `greetd_ipc::AuthMessageType`. -/
inductive AuthMessageType
  | visible
  | secret
  | info
  | error
deriving DecidableEq

/-- `greetd_ipc::ErrorType`. -/
inductive ErrorType
  | error
  | authError
deriving DecidableEq

/-- `greetd_ipc::Request`: the four request types of the wire protocol. -/
inductive Request
  | createSession (username : String)
  | postAuthMessageResponse (response : Option String)
  | startSession (cmd env : List String)
  | cancelSession
deriving DecidableEq

/-- `greetd_ipc::Response`: the three response types of the wire protocol. -/
inductive Response
  | success
  | error (errorType : ErrorType) (description : String)
  | authMessage (authMessageType : AuthMessageType) (authMessage : String)
deriving DecidableEq

/-- `greetd::RequestError` (src/greetd/mod.rs): a daemon-reported error. -/
inductive RequestError
  | error (description : String)
  | auth (description : String)
deriving DecidableEq

/-- The `thiserror` `Display` impl of `RequestError`. -/
def RequestError.display : RequestError → String
  | .error s => "Greetd error: " ++ s
  | .auth s => "Greetd authentication error: " ++ s

/-- `greetd_ipc::codec::Error`: a transport/codec failure, abstracted to its
display text. -/
structure CodecError where
  description : String
deriving DecidableEq

/-- The `Display` text of a codec error. -/
def CodecError.display (e : CodecError) : String := e.description

/-- The behaviour of the duplex channel for one request/response exchange:
the request write fails, the response read fails, or the daemon replies. -/
inductive IOEvent
  | writeFail (e : CodecError)
  | readFail (e : CodecError)
  | reply (r : Response)
deriving DecidableEq

/-- `greetd::Response<Client, Current, Next>` (src/greetd/mod.rs lines 69-70):
the nested result of every IPC interaction. The outer `Except.error` is a
transport failure, the inner `Except.error` a daemon-reported error; both
carry the current state as their first component so that the interaction can
be retried. -/
abbrev GreetdResult (Current Next : Type) : Type :=
  Except (Current × CodecError) (Except (Current × RequestError) Next)

/-! ## The socket implementation (src/greetd/async_sock_impl.rs)

`Conn` stands for the `RW: TokioRW` channel value. The `Client` namespace
holds the trait impls on `RW` itself (`Greetd`, `StartableSession`,
`CancellableSession`); `AuthMessage` is the struct of the same name. -/

/-- `async_sock_impl::AuthMessage<RW>`: a pending authentication prompt;
holds the channel together with the prompt text and kind. -/
structure AuthMessage (Conn : Type) where
  rw : Conn
  message : String
  type : AuthMessageType
deriving DecidableEq

/-- `greetd::CreateSessionResponse<Client>` (src/greetd/mod.rs): the successor
state after a create-session or respond exchange succeeds. For the socket
implementation `Client::StartableSession = RW = Conn`. -/
inductive CreateSessionResponse (Conn : Type)
  | success (startable : Conn)
  | authQuestion (question : AuthMessage Conn)
  | authInformative (informative : AuthMessage Conn)
deriving DecidableEq

/-- `AuthMessage::new_as_create_session` (async_sock_impl.rs lines 33-55):
classifies a daemon auth message into a question (visible/secret) or an
informative message (info/error). -/
def AuthMessage.new_as_create_session {Conn : Type} (rw : Conn)
    (type : AuthMessageType) (message : String) : CreateSessionResponse Conn :=
  match type with
  | .visible => .authQuestion { rw := rw, message := message, type := type }
  | .secret => .authQuestion { rw := rw, message := message, type := type }
  | .info => .authInformative { rw := rw, message := message, type := type }
  | .error => .authInformative { rw := rw, message := message, type := type }

/-- `make_request` (async_sock_impl.rs lines 269-284): writes the request and
reads the response; on either transport failure the channel is returned on the
error side. The request payload does not influence the channel value. -/
def make_request {Conn : Type} (rw : Conn) (request : Request) (ev : IOEvent) :
    Except (Conn × CodecError) (Conn × Response) :=
  match request, ev with
  | _, .writeFail e => .error (rw, e)
  | _, .readFail e => .error (rw, e)
  | _, .reply r => .ok (rw, r)

/-- `impl Greetd for RW :: create_session` (async_sock_impl.rs lines 67-101). -/
def Client.create_session {Conn : Type} (self : Conn) (username : String)
    (ev : IOEvent) : GreetdResult Conn (CreateSessionResponse Conn) :=
  match make_request self (.createSession username) ev with
  | .error (rw, e) => .error (rw, e)
  | .ok (self_, response) =>
    .ok (match response with
      | .success => .ok (.success self_)
      | .error errorType description =>
        .error (self_,
          match errorType with
          | .error => RequestError.error description
          | .authError => RequestError.auth description)
      | .authMessage t m => .ok (AuthMessage.new_as_create_session self_ t m))

/-- `impl StartableSession for RW :: start_session` (async_sock_impl.rs lines
104-142). `none` models the `unreachable!` panic on an auth-message reply. -/
def Client.start_session {Conn : Type} (self : Conn) (cmd env : List String)
    (ev : IOEvent) : Option (GreetdResult Conn Conn) :=
  match make_request self (.startSession cmd env) ev with
  | .error (rw, e) => some (.error (rw, e))
  | .ok (client, response) =>
    match response with
    | .success => some (.ok (.ok client))
    | .error .authError description => some (.ok (.error (client, .auth description)))
    | .error .error description => some (.ok (.error (client, .error description)))
    | .authMessage _ _ => none

/-- `impl CancellableSession for T: TokioRW :: cancel_session`
(async_sock_impl.rs lines 144-172). `none` models the `unreachable!` panic on
an auth-message reply. -/
def Client.cancel_session {Conn : Type} (self : Conn) (ev : IOEvent) :
    Option (GreetdResult Conn Conn) :=
  match make_request self .cancelSession ev with
  | .error (rw, e) => some (.error (rw, e))
  | .ok (client, response) =>
    match response with
    | .success => some (.ok (.ok client))
    | .error .authError description => some (.ok (.error (client, .auth description)))
    | .error .error description => some (.ok (.error (client, .error description)))
    | .authMessage _ _ => none

/-- `impl AuthResponse for AuthMessage<RW> :: respond` (async_sock_impl.rs
lines 190-229): sends the credential, returning `self` whole on transport
failure or daemon-reported error. -/
def AuthMessage.respond {Conn : Type} (self : AuthMessage Conn)
    (msg : Option String) (ev : IOEvent) :
    GreetdResult (AuthMessage Conn) (CreateSessionResponse Conn) :=
  match msg, ev with
  | _, .writeFail e => .error (self, e)
  | _, .readFail e => .error (self, e)
  | _, .reply response =>
    .ok (match response with
      | .success => .ok (.success self.rw)
      | .error .authError description => .error (self, .auth description)
      | .error .error description => .error (self, .error description)
      | .authMessage t m => .ok (AuthMessage.new_as_create_session self.rw t m))

/-- `impl CancellableSession for AuthMessage<RW> :: cancel_session`
(async_sock_impl.rs lines 231-266): delegates to the channel's cancel and
re-wraps the channel in the original prompt on either failure side. -/
def AuthMessage.cancel_session {Conn : Type} (self : AuthMessage Conn)
    (ev : IOEvent) : Option (GreetdResult (AuthMessage Conn) Conn) :=
  match Client.cancel_session self.rw ev with
  | none => none
  | some (.error (not_canceled, e)) =>
    some (.error ({ self with rw := not_canceled }, e))
  | some (.ok (.ok rw)) => some (.ok (.ok rw))
  | some (.ok (.error (not_canceled, e))) =>
    some (.ok (.error ({ self with rw := not_canceled }, e)))

/-- The `AuthInformative<'a>` view enum of src/greetd/mod.rs. -/
inductive AuthInformativeView
  | info (message : String)
  | error (message : String)
deriving DecidableEq

/-- `AuthInformativeResponse::auth_informative` (src/greetd/mod.rs lines
156-168) applied to the socket `AuthMessage`: `none` models the
`unreachable!` panic when the stored message is a visible/secret question. -/
def AuthMessage.auth_informative {Conn : Type} (self : AuthMessage Conn) :
    Option AuthInformativeView :=
  match self.type with
  | .info => some (.info self.message)
  | .error => some (.error self.message)
  | .visible => none
  | .secret => none

/-! ## The session controller (src/gui/component/greetd_controls.rs)

The relm4 component is embedded as a pure step system. `GreetdControls` is the
model struct (its widget-only fields included); `update` handles an input
message and `update_cmd` the completion of a spawned asynchronous command.
A `sender.oneshot_command` spawn is represented by the returned
`Option (PendingOp Conn)` value describing the async block that was spawned;
`PendingOp.run` executes that block (the `try_*` helpers) against a channel
event, and `PendingOp.request` is the single IPC request that block sends.
Emitted component outputs are collected in order in a list. `Option` return
values model `unreachable!` panics, `none` meaning a panic. -/

/-- `GreetdInformativeState<Client>` (greetd_controls.rs lines 87-96). -/
inductive GreetdInformativeState (Conn : Type)
  | notSent (informative : AuthMessage Conn)
  | waitingForInfo (message : String)
  | waitingForError (message : String)
deriving DecidableEq

/-- `GreetdState<Client>` (greetd_controls.rs lines 53-85). For the socket
client, `Client = Client::StartableSession = Conn`. -/
inductive GreetdState (Conn : Type)
  | notCreated (client : Conn)
  | startable (startable : Conn)
  | authQuestion (session : AuthMessage Conn)
  | authInformative (state : GreetdInformativeState Conn)
  | loading (message : String)
  | sessionStarted
deriving DecidableEq

/-- `GreetdControls<Client>` model struct (greetd_controls.rs lines 29-51). -/
structure GreetdControls (Conn : Type) where
  greetd_state : GreetdState Conn
  username : String
  command : Option (List String)
  env : List String
  reset_question_inputs_event : Bool
  just_switched_screens_event : Bool
deriving DecidableEq

/-- `GreetdControlsOutput` (greetd_controls.rs lines 98-117). -/
inductive GreetdControlsOutput
  | notifyError (message : String)
  | lockUserSelectors
  | unlockUserSelectors
  | sessionStarted
deriving DecidableEq

/-- `GreetdControlsMsg` (greetd_controls.rs lines 119-150). -/
inductive GreetdControlsMsg
  | updateUser (username : String)
  | updateSession (command : Option (List String))
  | cancel
  | advanceAuthentication (credential : Option String)
deriving DecidableEq

/-- The asynchronous blocks the controller spawns with
`sender.oneshot_command`, one constructor per spawn site in
greetd_controls.rs. -/
inductive PendingOp (Conn : Type)
  | cancelStartable (client : Conn)
  | cancelAuthQuestion (session : AuthMessage Conn)
  | cancelAuthInformative (session : AuthMessage Conn)
  | createSession (client : Conn) (username : String)
  | startSession (startable : Conn) (command env : List String)
  | authQuestionRespond (session : AuthMessage Conn) (credential : Option String)
  | authInformativeRespond (informative : AuthMessage Conn)
deriving DecidableEq

/-- The one IPC request a spawned block sends over the Connection (each
`try_*` helper calls exactly one protocol operation). -/
def PendingOp.request {Conn : Type} : PendingOp Conn → Request
  | .cancelStartable _ => .cancelSession
  | .cancelAuthQuestion _ => .cancelSession
  | .cancelAuthInformative _ => .cancelSession
  | .createSession _ username => .createSession username
  | .startSession _ command env => .startSession command env
  | .authQuestionRespond _ credential => .postAuthMessageResponse credential
  | .authInformativeRespond _ => .postAuthMessageResponse none

/-- `try_cancel` (greetd_controls.rs lines 785-806), generic over the state's
`cancel_session` implementation exactly as the source is generic over
`Session: CancellableSession`. -/
def try_cancel {Conn σ : Type}
    (cancelImpl : σ → IOEvent → Option (GreetdResult σ Conn)) (session : σ)
    (variant : σ → GreetdState Conn) (ev : IOEvent) :
    Option (GreetdState Conn × Option String) :=
  match cancelImpl session ev with
  | none => none
  | some (.error (session, err)) =>
    some (variant session, some ("IPC error: " ++ err.display))
  | some (.ok (.ok client)) => some (.notCreated client, none)
  | some (.ok (.error (session, err))) =>
    some (variant session, some ("Reported error: " ++ err.display))

/-- `try_create_session` (greetd_controls.rs lines 808-839). -/
def try_create_session {Conn : Type} (client : Conn) (username : String)
    (ev : IOEvent) : GreetdState Conn × Option String :=
  match Client.create_session client username ev with
  | .error (client, err) => (.notCreated client, some err.display)
  | .ok (.error (client, err)) => (.notCreated client, some err.display)
  | .ok (.ok session) =>
    (match session with
     | .success startable => .startable startable
     | .authQuestion question => .authQuestion question
     | .authInformative informative =>
       .authInformative (.notSent informative),
     none)

/-- `try_start_session` (greetd_controls.rs lines 841-864). -/
def try_start_session {Conn : Type} (session : Conn)
    (variant : Conn → GreetdState Conn) (command env : List String)
    (ev : IOEvent) : Option (GreetdState Conn × Option String) :=
  match Client.start_session session command env ev with
  | none => none
  | some (.error (startable, err)) => some (variant startable, some err.display)
  | some (.ok (.ok _client)) => some (.sessionStarted, none)
  | some (.ok (.error (startable, err))) =>
    some (variant startable, some err.display)

/-- `try_auth` (greetd_controls.rs lines 866-898), at the socket client's
`AuthMessage` instance of `Message: AuthResponse`. -/
def try_auth {Conn : Type} (message : AuthMessage Conn)
    (variant : AuthMessage Conn → GreetdState Conn)
    (credential : Option String) (ev : IOEvent) :
    GreetdState Conn × Option String :=
  match message.respond credential ev with
  | .error (message, err) => (variant message, some err.display)
  | .ok (.error (message, err)) => (variant message, some err.display)
  | .ok (.ok session) =>
    (match session with
     | .success startable => .startable startable
     | .authQuestion question => .authQuestion question
     | .authInformative informative =>
       .authInformative (.notSent informative),
     none)

/-- Runs a spawned block against the channel's behaviour for its one
request/response exchange, yielding the `CommandOutput::GreetdResponse`
payload. The `variant` continuations are the ones at each spawn site. -/
def PendingOp.run {Conn : Type} :
    PendingOp Conn → IOEvent → Option (GreetdState Conn × Option String)
  | .cancelStartable client, ev =>
    try_cancel Client.cancel_session client .startable ev
  | .cancelAuthQuestion session, ev =>
    try_cancel AuthMessage.cancel_session session
      (fun session => .authQuestion session) ev
  | .cancelAuthInformative session, ev =>
    try_cancel AuthMessage.cancel_session session
      (fun state => .authInformative (.notSent state)) ev
  | .createSession client username, ev =>
    some (try_create_session client username ev)
  | .startSession startable command env, ev =>
    try_start_session startable .startable command env ev
  | .authQuestionRespond session credential, ev =>
    some (try_auth session (fun session => .authQuestion session) credential ev)
  | .authInformativeRespond informative, ev =>
    some (try_auth informative
      (fun state => .authInformative (.notSent state)) none ev)

/-- `GreetdControls::cancel_session` (greetd_controls.rs lines 623-675): the
current state is `replace`d with a `Loading` placeholder, then dispatched. -/
def GreetdControls.cancel_session {Conn : Type} (self : GreetdControls Conn) :
    GreetdControls Conn × Option (PendingOp Conn) × List GreetdControlsOutput :=
  let greetd_state := self.greetd_state
  let self := { self with greetd_state := .loading "Canceling session" }
  match greetd_state with
  | .loading old => ({ self with greetd_state := .loading old }, none, [])
  | .notCreated client =>
    ({ self with greetd_state := .notCreated client }, none, [])
  | .startable client => (self, some (.cancelStartable client), [])
  | .authQuestion session => (self, some (.cancelAuthQuestion session), [])
  | .authInformative (.notSent session) =>
    (self, some (.cancelAuthInformative session), [])
  | .authInformative _ =>
    (self, none,
     [.notifyError "An operation is currently pending, cannot cancel."])
  | .sessionStarted => (self, none, [])

/-- `GreetdControls::advance_authentication` (greetd_controls.rs lines
677-770). -/
def GreetdControls.advance_authentication {Conn : Type}
    (self : GreetdControls Conn) (credential : Option String) :
    GreetdControls Conn × Option (PendingOp Conn) × List GreetdControlsOutput :=
  let greetd_state := self.greetd_state
  let self := { self with greetd_state := .loading "Authenticating" }
  match greetd_state with
  | .loading old => ({ self with greetd_state := .loading old }, none, [])
  | .startable startable =>
    (match self.command with
     | some command =>
       ({ self with greetd_state := .loading "Starting session" },
        some (.startSession startable command self.env), [])
     | none =>
       ({ self with greetd_state := .startable startable }, none,
        [.notifyError "Selected session cannot be executed because it is invalid"]))
  | .notCreated client =>
    (self, some (.createSession client self.username), [])
  | .authQuestion session =>
    (self, some (.authQuestionRespond session credential), [])
  | .authInformative (.notSent informative) =>
    (self, some (.authInformativeRespond informative), [])
  | .authInformative _ =>
    (self, none,
     [.notifyError "An operation is currently pending, cannot cancel"])
  | .sessionStarted => (self, none, [])

/-- `GreetdControls::change_user` (greetd_controls.rs lines 772-782): legal
only in `NotCreated`; `none` models the `unreachable!` panic in every other
state. -/
def GreetdControls.change_user {Conn : Type} (self : GreetdControls Conn)
    (username : String) : Option (GreetdControls Conn) :=
  match self.greetd_state with
  | .notCreated _ => some { self with username := username }
  | _ => none

/-- The Lock/Unlock output emitted at the end of `update` and `update_cmd`
depending on the resulting state (greetd_controls.rs lines 508-516 and
600-608). -/
def lockOutput {Conn : Type} (state : GreetdState Conn) : GreetdControlsOutput :=
  match state with
  | .notCreated _ => .unlockUserSelectors
  | _ => .lockUserSelectors

/-- `Component::update` (greetd_controls.rs lines 489-517). -/
def GreetdControls.update {Conn : Type} (self : GreetdControls Conn)
    (message : GreetdControlsMsg) :
    Option (GreetdControls Conn × Option (PendingOp Conn) ×
            List GreetdControlsOutput) :=
  let self := { self with
    reset_question_inputs_event := false
    just_switched_screens_event := false }
  let step : Option (GreetdControls Conn × Option (PendingOp Conn) ×
                     List GreetdControlsOutput) :=
    match message with
    | .cancel =>
      some { self with reset_question_inputs_event := true }.cancel_session
    | .advanceAuthentication credential =>
      some (self.advance_authentication credential)
    | .updateUser username =>
      (match self.change_user username with
       | some model => some (model, none, [])
       | none => none)
    | .updateSession command =>
      some ({ self with command := command }, none, [])
  match step with
  | none => none
  | some (model, pending, outs) =>
    some (model, pending, outs ++ [lockOutput model.greetd_state])

/-- `From<AuthInformative> for GreetdInformativeState` (greetd_controls.rs
lines 900-910). -/
def GreetdInformativeState.ofView {Conn : Type} :
    AuthInformativeView → GreetdInformativeState Conn
  | .info message => .waitingForInfo message
  | .error message => .waitingForError message

/-- `Component::update_cmd` (greetd_controls.rs lines 519-617): processes the
`CommandOutput::GreetdResponse { greetd_state, error }` of a completed spawned
block. `none` models the `unreachable!` reachable through
`auth_informative()` on a question message. -/
def GreetdControls.update_cmd {Conn : Type} (self : GreetdControls Conn)
    (greetd_state : GreetdState Conn) (error : Option String) :
    Option (GreetdControls Conn × Option (PendingOp Conn) ×
            List GreetdControlsOutput) :=
  let self := { self with just_switched_screens_event := true }
  let errOuts : List GreetdControlsOutput :=
    match error with
    | some e => [.notifyError e]
    | none => []
  let step : Option (GreetdControls Conn × Option (PendingOp Conn) ×
                     List GreetdControlsOutput) :=
    match greetd_state with
    | .startable startable =>
      (match self.command with
       | some command =>
         some ({ self with greetd_state := .loading "Starting session" },
               some (.startSession startable command self.env), errOuts)
       | none =>
         some ({ self with greetd_state := .startable startable }, none,
               errOuts ++
                 [.notifyError
                   "Selected session cannot be executed because it is invalid"]))
    | .authInformative (.notSent informative) =>
      (match informative.auth_informative with
       | none => none
       | some view =>
         some ({ self with
                  greetd_state := .authInformative
                    (GreetdInformativeState.ofView view) },
               some (.authInformativeRespond informative), errOuts))
    | .sessionStarted =>
      some ({ self with greetd_state := .sessionStarted }, none,
            errOuts ++ [.sessionStarted])
    | other => some ({ self with greetd_state := other }, none, errOuts)
  match step with
  | none => none
  | some (model, pending, outs) =>
    let model :=
      match error, model.greetd_state with
      | none, .authQuestion _ =>
        { model with reset_question_inputs_event := true }
      | _, _ => model
    some (model, pending, outs ++ [lockOutput model.greetd_state])

/-! ## Caller-operation sequences

The two user-driven operations of the component, as a little language for
stating temporal properties over runs of `GreetdControls.update`. -/

/-- A caller operation: the Cancel button or an advance (with an optional
credential). -/
inductive CtrlOp
  | cancelOp
  | advanceOp (credential : Option String)
deriving DecidableEq

/-- The component input message of a caller operation. -/
def CtrlOp.msg : CtrlOp → GreetdControlsMsg
  | .cancelOp => .cancel
  | .advanceOp credential => .advanceAuthentication credential

/-- Runs a sequence of caller operations through `update`, collecting every
spawned block (hence every IPC request) along the way; `none` if some step
panicked. -/
def runOps {Conn : Type} (self : GreetdControls Conn) :
    List CtrlOp → Option (GreetdControls Conn × List (PendingOp Conn))
  | [] => some (self, [])
  | op :: rest =>
    match self.update op.msg with
    | none => none
    | some (model, pending, _) =>
      match runOps model rest with
      | none => none
      | some (final, pendings) => some (final, pending.toList ++ pendings)

/-! ## The selection cache (src/cache.rs) -/

/-- `SessionIdOrCmdline` (cache.rs lines 25-33). -/
inductive SessionIdOrCmdline
  | xdgDektopFile (entry : String)
  | command (cmdline : String)
deriving DecidableEq

/-- `Cache` (cache.rs lines 17-23): an ordered username → last-session list,
first entry most recent. -/
structure Cache where
  user_to_last_sess : List (String × SessionIdOrCmdline)
deriving DecidableEq

/-- The `Vec::retain` loop of `Cache::dedup_user_to_last_sess` (cache.rs lines
100-104): keep an entry iff its username was not inserted into the seen set
yet, i.e. keep the first occurrence of each username. The `HashSet` is
modelled as the list of usernames seen so far. -/
def retainFresh (seen : List String) :
    List (String × SessionIdOrCmdline) → List (String × SessionIdOrCmdline)
  | [] => []
  | (user, sess) :: rest =>
    if user ∈ seen then retainFresh seen rest
    else (user, sess) :: retainFresh (user :: seen) rest

/-- `Cache::dedup_user_to_last_sess` (cache.rs lines 100-105). -/
def Cache.dedup_user_to_last_sess (self : Cache) : Cache :=
  { user_to_last_sess := retainFresh [] self.user_to_last_sess }

/-- The list transformation both `Cache::load` (cache.rs lines 46-47) and
`Cache::save` (cache.rs lines 72-73) apply around the file I/O:
`dedup_user_to_last_sess` followed by `truncate(limit)`. This is the exact
content persisted by `save` and the exact content returned by `load`. -/
def Cache.normalize (self : Cache) (limit : Nat) : Cache :=
  { user_to_last_sess :=
      self.dedup_user_to_last_sess.user_to_last_sess.take limit }

/-- `Cache::last_user_session` (cache.rs lines 83-87): first matching entry. -/
def Cache.last_user_session (self : Cache) (username : String) :
    Option SessionIdOrCmdline :=
  match self.user_to_last_sess.find? (fun p => p.fst = username) with
  | some (_, session) => some session
  | none => none

/-- `Cache::set_last_login` (cache.rs lines 89-92): insert at index 0, then
dedup. -/
def Cache.set_last_login (self : Cache) (username : String)
    (session : SessionIdOrCmdline) : Cache :=
  Cache.dedup_user_to_last_sess
    { user_to_last_sess := (username, session) :: self.user_to_last_sess }

/-! ## Theorems -/

/-- Whether a state is the `NotCreated` variant. -/
def GreetdState.isNotCreated {Conn : Type} : GreetdState Conn → Bool
  | .notCreated _ => true
  | _ => false

/-- C1: every protocol operation (create_session, respond, start_session,
cancel_session — the latter on both the bare client and a pending prompt)
that completes with a daemon-reported error returns, alongside the error, the
very state value it was invoked on; in particular the state category is
preserved and an `AuthQuestion`/`AuthInformative` prompt keeps its original
text and kind, so the caller may retry the operation. -/
theorem daemon_error_returns_original_state {Conn : Type}
    (errorType : ErrorType) (description : String) :
    (∀ (client : Conn) (username : String), ∃ e,
      Client.create_session client username
          (.reply (.error errorType description))
        = .ok (.error (client, e)))
    ∧ (∀ (m : AuthMessage Conn) (credential : Option String), ∃ e,
      m.respond credential (.reply (.error errorType description))
        = .ok (.error (m, e)))
    ∧ (∀ (startable : Conn) (cmd env : List String), ∃ e,
      Client.start_session startable cmd env
          (.reply (.error errorType description))
        = some (.ok (.error (startable, e))))
    ∧ (∀ client : Conn, ∃ e,
      Client.cancel_session client (.reply (.error errorType description))
        = some (.ok (.error (client, e))))
    ∧ (∀ m : AuthMessage Conn, ∃ e,
      m.cancel_session (.reply (.error errorType description))
        = some (.ok (.error (m, e)))) := by
  refine ⟨fun client username => ?_, fun m credential => ?_,
    fun startable cmd env => ?_, fun client => ?_, fun m => ?_⟩ <;>
      cases errorType <;> exact ⟨_, rfl⟩

/-- C2 counterexample: a transport (codec) failure does NOT propagate with no
state attached. At a concrete input, `create_session` hit by a write failure
returns the original client paired with the error (mod.rs lines 69-70: both
`Err` levels carry the current state "so that the interaction can be
retried"), and the controller's `try_create_session` turns it into the
resumable `NotCreated` state — exactly what the claim denies. -/
theorem transport_error_carries_state_cex :
    Client.create_session () "alice"
        (.writeFail { description := "broken pipe" })
      = .error ((), { description := "broken pipe" })
    ∧ try_create_session () "alice"
        (.writeFail { description := "broken pipe" })
      = ((.notCreated () : GreetdState Unit), some "broken pipe") :=
  ⟨rfl, rfl⟩

/-- C2 amended: a transport (IPC/codec) failure is reported the same way a
daemon error is — paired with the state the operation was invoked on, on the
outer level of the nested result, so the interaction can be retried; the
controller maps it to a resumable state plus an error notification. -/
theorem transport_error_attaches_state {Conn : Type} (e : CodecError) :
    (∀ (client : Conn) (username : String),
      Client.create_session client username (.writeFail e) = .error (client, e)
      ∧ Client.create_session client username (.readFail e) = .error (client, e))
    ∧ (∀ (m : AuthMessage Conn) (credential : Option String),
      m.respond credential (.writeFail e) = .error (m, e)
      ∧ m.respond credential (.readFail e) = .error (m, e))
    ∧ (∀ (startable : Conn) (cmd env : List String),
      Client.start_session startable cmd env (.writeFail e)
          = some (.error (startable, e))
      ∧ Client.start_session startable cmd env (.readFail e)
          = some (.error (startable, e)))
    ∧ (∀ client : Conn,
      Client.cancel_session client (.writeFail e) = some (.error (client, e))
      ∧ Client.cancel_session client (.readFail e) = some (.error (client, e)))
    ∧ (∀ m : AuthMessage Conn,
      m.cancel_session (.writeFail e) = some (.error (m, e))
      ∧ m.cancel_session (.readFail e) = some (.error (m, e)))
    ∧ (∀ (client : Conn) (username : String),
      try_create_session client username (.writeFail e)
          = (.notCreated client, some e.display)
      ∧ try_create_session client username (.readFail e)
          = (.notCreated client, some e.display)) := by
  exact ⟨fun client username => ⟨rfl, rfl⟩, fun m credential => ⟨rfl, rfl⟩,
    fun startable cmd env => ⟨rfl, rfl⟩, fun client => ⟨rfl, rfl⟩,
    fun m => ⟨rfl, rfl⟩, fun client username => ⟨rfl, rfl⟩⟩

/-- C3: the variant returned by `create_session` is selected exactly by the
daemon's response type: success yields the `Success`/`Startable` variant, a
visible or secret auth message yields `AuthQuestion`, an info or error auth
message yields `AuthInformative` (each carrying the prompt text and kind). -/
theorem create_session_response_mapping {Conn : Type} (client : Conn)
    (username message : String) :
    Client.create_session client username (.reply .success)
      = .ok (.ok (.success client))
    ∧ Client.create_session client username
        (.reply (.authMessage .visible message))
      = .ok (.ok (.authQuestion ⟨client, message, .visible⟩))
    ∧ Client.create_session client username
        (.reply (.authMessage .secret message))
      = .ok (.ok (.authQuestion ⟨client, message, .secret⟩))
    ∧ Client.create_session client username
        (.reply (.authMessage .info message))
      = .ok (.ok (.authInformative ⟨client, message, .info⟩))
    ∧ Client.create_session client username
        (.reply (.authMessage .error message))
      = .ok (.ok (.authInformative ⟨client, message, .error⟩)) :=
  ⟨rfl, rfl, rfl, rfl, rfl⟩

/-- C4: `start_session` on a `Startable` state yields the started session on
a success response (which the controller maps to `SessionStarted`), and on a
daemon-reported error yields back the same `Startable` state paired with the
error; the controller's `try_start_session` never produces `NotCreated`, for
any channel behaviour. -/
theorem start_session_outcomes {Conn : Type} (startable : Conn)
    (command env : List String) :
    Client.start_session startable command env (.reply .success)
      = some (.ok (.ok startable))
    ∧ try_start_session startable .startable command env (.reply .success)
      = some (.sessionStarted, none)
    ∧ (∀ errorType description, ∃ e,
        Client.start_session startable command env
            (.reply (.error errorType description))
          = some (.ok (.error (startable, e))))
    ∧ (∀ errorType description, ∃ notification,
        try_start_session startable .startable command env
            (.reply (.error errorType description))
          = some (.startable startable, some notification))
    ∧ (∀ ev : IOEvent,
        Option.all (fun r => !r.1.isNotCreated)
          (try_start_session startable .startable command env ev) = true) := by
  refine ⟨rfl, rfl, fun errorType description => ?_,
    fun errorType description => ?_, fun ev => ?_⟩
  · cases errorType <;> exact ⟨_, rfl⟩
  · cases errorType <;> exact ⟨_, rfl⟩
  · cases ev with
    | writeFail e => rfl
    | readFail e => rfl
    | reply r =>
      cases r with
      | success => rfl
      | error errorType description => cases errorType <;> rfl
      | authMessage t m => rfl

/-- Whether a state is one of the two connection-less phases (the terminal
`SessionStarted` marker or the `Loading` placeholder). -/
def GreetdState.inactive {Conn : Type} : GreetdState Conn → Bool
  | .sessionStarted => true
  | .loading _ => true
  | _ => false

/-- A concrete controller model over the trivial channel, used to witness the
controller theorems at concrete inputs. -/
def witnessModel (state : GreetdState Unit) : GreetdControls Unit :=
  { greetd_state := state
    username := "alice"
    command := some ["sway"]
    env := ["XDG_SESSION_TYPE=wayland"]
    reset_question_inputs_event := false
    just_switched_screens_event := false }

/-- C5: when a completed operation hands the controller a `Startable` state
with no error, then: with a configured (non-empty) command, `update_cmd`
itself immediately spawns the `start_session` block (whose one request is
`start_session`) without further caller input, parking the UI on the
"Starting session" placeholder; with no command configured it emits a local
error notification, stays at `Startable`, and spawns nothing, so no request
reaches the daemon. -/
theorem startable_autostart_or_local_error {Conn : Type}
    (m : GreetdControls Conn) (startable : Conn) (command : List String) :
    (command ≠ [] → m.command = some command →
      m.update_cmd (.startable startable) none
        = some ({ m with just_switched_screens_event := true,
                         greetd_state := .loading "Starting session" },
                some (.startSession startable command m.env),
                [.lockUserSelectors])
      ∧ (PendingOp.startSession startable command m.env).request
          = .startSession command m.env)
    ∧ (m.command = none →
      m.update_cmd (.startable startable) none
        = some ({ m with just_switched_screens_event := true,
                         greetd_state := .startable startable },
                none,
                [.notifyError
                   "Selected session cannot be executed because it is invalid",
                 .lockUserSelectors])) := by
  obtain ⟨gs, u, c, e, r, j⟩ := m
  constructor
  · intro _hne hc
    replace hc : c = some command := hc
    subst hc
    exact ⟨rfl, rfl⟩
  · intro hc
    replace hc : c = none := hc
    subst hc
    rfl

/-- C5 witness: the autostart branch at a concrete model. -/
theorem startable_autostart_or_local_error_witness :
    (["sway"] : List String) ≠ []
    ∧ ((witnessModel (.loading "x")).update_cmd (.startable ()) none
        = some ({ witnessModel (.loading "x") with
                    just_switched_screens_event := true,
                    greetd_state := .loading "Starting session" },
                some (.startSession () ["sway"]
                  (witnessModel (.loading "x")).env),
                [.lockUserSelectors])
      ∧ (PendingOp.startSession () ["sway"]
            (witnessModel (.loading "x")).env).request
          = .startSession ["sway"] (witnessModel (.loading "x")).env) :=
  ⟨by simp,
   (startable_autostart_or_local_error (witnessModel (.loading "x")) ()
      ["sway"]).1 (by simp) rfl⟩

/-- C6: a cancellation that the daemon answers with success always yields
`NotCreated` — the spawned cancel block from each live connection-holding
state (`Startable`, `AuthQuestion`, `AuthInformative`) maps a success reply
to `NotCreated`, `update_cmd` stores it unchanged, and the controller spawns
exactly those blocks from those states; a second cancel issued right after a
successful one finds `NotCreated`, keeps it, and spawns no block, so no
request is sent to the daemon. -/
theorem cancel_success_yields_not_created {Conn : Type}
    (m : GreetdControls Conn) :
    (∀ client : Conn,
      (PendingOp.cancelStartable client).run (.reply .success)
        = some (.notCreated client, none))
    ∧ (∀ session : AuthMessage Conn,
      (PendingOp.cancelAuthQuestion session).run (.reply .success)
        = some (.notCreated session.rw, none))
    ∧ (∀ session : AuthMessage Conn,
      (PendingOp.cancelAuthInformative session).run (.reply .success)
        = some (.notCreated session.rw, none))
    ∧ (∀ client : Conn,
      m.update_cmd (.notCreated client) none
        = some ({ m with just_switched_screens_event := true,
                         greetd_state := .notCreated client }, none,
                [.unlockUserSelectors]))
    ∧ (∀ client : Conn, m.greetd_state = .notCreated client →
      m.update .cancel
        = some ({ m with reset_question_inputs_event := true,
                         just_switched_screens_event := false }, none,
                [.unlockUserSelectors]))
    ∧ (∀ client : Conn, m.greetd_state = .startable client →
      m.update .cancel
        = some ({ m with reset_question_inputs_event := true,
                         just_switched_screens_event := false,
                         greetd_state := .loading "Canceling session" },
                some (.cancelStartable client), [.lockUserSelectors]))
    ∧ (∀ session : AuthMessage Conn, m.greetd_state = .authQuestion session →
      m.update .cancel
        = some ({ m with reset_question_inputs_event := true,
                         just_switched_screens_event := false,
                         greetd_state := .loading "Canceling session" },
                some (.cancelAuthQuestion session), [.lockUserSelectors]))
    ∧ (∀ session : AuthMessage Conn,
        m.greetd_state = .authInformative (.notSent session) →
      m.update .cancel
        = some ({ m with reset_question_inputs_event := true,
                         just_switched_screens_event := false,
                         greetd_state := .loading "Canceling session" },
                some (.cancelAuthInformative session),
                [.lockUserSelectors])) := by
  obtain ⟨gs, u, c, e, r, j⟩ := m
  refine ⟨fun client => rfl, fun session => rfl, fun session => rfl,
    fun client => rfl, fun client h => ?_, fun client h => ?_,
    fun session h => ?_, fun session h => ?_⟩
  · replace h : gs = .notCreated client := h
    subst h; rfl
  · replace h : gs = .startable client := h
    subst h; rfl
  · replace h : gs = .authQuestion session := h
    subst h; rfl
  · replace h : gs = .authInformative (.notSent session) := h
    subst h; rfl

/-- C6 witness: the second-cancel conjunct at a concrete `NotCreated`
model. -/
theorem cancel_success_yields_not_created_witness :
    (witnessModel (.notCreated ())).update .cancel
      = some ({ witnessModel (.notCreated ()) with
                  reset_question_inputs_event := true,
                  just_switched_screens_event := false }, none,
              [.unlockUserSelectors]) :=
  (cancel_success_yields_not_created
    (witnessModel (.notCreated ()))).2.2.2.2.1 () rfl

/-- C7: `change_user` succeeds exactly when the controller is in
`NotCreated`; on success only the stored username changes (the state value —
hence the Connection — is untouched), and whenever the `UpdateUser` message
is processed without the `unreachable!` programming-error panic, no block is
spawned (nothing is sent to the daemon) and the state survives unchanged. -/
theorem change_user_only_in_not_created {Conn : Type}
    (m : GreetdControls Conn) (username : String) :
    ((m.change_user username).isSome
        ↔ ∃ client, m.greetd_state = .notCreated client)
    ∧ (∀ client, m.greetd_state = .notCreated client →
        m.change_user username = some { m with username := username })
    ∧ (m.update (.updateUser username)).elim True
        (fun result => result.2.1 = none
          ∧ result.1.greetd_state = m.greetd_state
          ∧ result.1.username = username) := by
  obtain ⟨gs, u, c, e, r, j⟩ := m
  refine ⟨?_, fun client h => ?_, ?_⟩
  · cases gs <;> simp [GreetdControls.change_user]
  · replace h : gs = .notCreated client := h
    subst h; rfl
  · cases gs with
    | notCreated client => exact ⟨rfl, rfl, rfl⟩
    | startable s => trivial
    | authQuestion s => trivial
    | authInformative s => trivial
    | loading s => trivial
    | sessionStarted => trivial

/-- C7 witness: a successful user change at a concrete `NotCreated` model. -/
theorem change_user_only_in_not_created_witness :
    (witnessModel (.notCreated ())).change_user "bob"
      = some { witnessModel (.notCreated ()) with username := "bob" } :=
  (change_user_only_in_not_created
    (witnessModel (.notCreated ())) "bob").2.1 () rfl

/-- C10: while the `Loading` placeholder is current, both Cancel and
Advance restore the very same placeholder message, spawn no block (so no IPC
request is issued), and only the widget event flags change. -/
theorem loading_state_noop {Conn : Type} (m : GreetdControls Conn)
    (message : String) (h : m.greetd_state = .loading message)
    (credential : Option String) :
    m.update .cancel
      = some ({ m with reset_question_inputs_event := true,
                       just_switched_screens_event := false }, none,
              [.lockUserSelectors])
    ∧ m.update (.advanceAuthentication credential)
      = some ({ m with reset_question_inputs_event := false,
                       just_switched_screens_event := false }, none,
              [.lockUserSelectors]) := by
  obtain ⟨gs, u, c, e, r, j⟩ := m
  replace h : gs = .loading message := h
  subst h
  exact ⟨rfl, rfl⟩

/-- C10 witness: both operations at a concrete loading model. -/
theorem loading_state_noop_witness :
    (witnessModel (.loading "Please wait")).update .cancel
      = some ({ witnessModel (.loading "Please wait") with
                  reset_question_inputs_event := true,
                  just_switched_screens_event := false }, none,
              [.lockUserSelectors])
    ∧ (witnessModel (.loading "Please wait")).update
        (.advanceAuthentication (some "hunter2"))
      = some ({ witnessModel (.loading "Please wait") with
                  reset_question_inputs_event := false,
                  just_switched_screens_event := false }, none,
              [.lockUserSelectors]) :=
  loading_state_noop (witnessModel (.loading "Please wait")) "Please wait" rfl
    (some "hunter2")

/-- Helper for C8: one caller operation on a connection-less (`SessionStarted`
or `Loading`) state spawns nothing and stays connection-less. -/
theorem update_inactive_step {Conn : Type} (m : GreetdControls Conn)
    (h : m.greetd_state.inactive = true) (op : CtrlOp) :
    ∃ model outs, m.update op.msg = some (model, none, outs)
      ∧ model.greetd_state.inactive = true := by
  obtain ⟨gs, u, c, e, r, j⟩ := m
  replace h : gs.inactive = true := h
  cases op with
  | cancelOp =>
    cases gs with
    | sessionStarted => exact ⟨_, _, rfl, rfl⟩
    | loading message => exact ⟨_, _, rfl, rfl⟩
    | notCreated client => exact absurd h (by simp [GreetdState.inactive])
    | startable s => exact absurd h (by simp [GreetdState.inactive])
    | authQuestion s => exact absurd h (by simp [GreetdState.inactive])
    | authInformative s => exact absurd h (by simp [GreetdState.inactive])
  | advanceOp credential =>
    cases gs with
    | sessionStarted => exact ⟨_, _, rfl, rfl⟩
    | loading message => exact ⟨_, _, rfl, rfl⟩
    | notCreated client => exact absurd h (by simp [GreetdState.inactive])
    | startable s => exact absurd h (by simp [GreetdState.inactive])
    | authQuestion s => exact absurd h (by simp [GreetdState.inactive])
    | authInformative s => exact absurd h (by simp [GreetdState.inactive])

/-- Helper for C8: a whole run of caller operations from a connection-less
state spawns no block at all and ends connection-less. -/
theorem runOps_inactive {Conn : Type} (ops : List CtrlOp) :
    ∀ m : GreetdControls Conn, m.greetd_state.inactive = true →
    ∃ final, runOps m ops = some (final, [])
      ∧ final.greetd_state.inactive = true := by
  induction ops with
  | nil => exact fun m h => ⟨m, rfl, h⟩
  | cons op rest ih =>
    intro m h
    obtain ⟨model, outs, hstep, hinact⟩ := update_inactive_step m h op
    obtain ⟨final, hrun, hfin⟩ := ih model hinact
    exact ⟨final, by simp [runOps, hstep, hrun], hfin⟩

/-- C8 counterexample: after `SessionStarted`, a Cancel does NOT leave the
state at `SessionStarted` — the `mem::replace` placeholder is never restored
by the `S::SessionStarted => ()` arm, so the state ends up as
`Loading("Canceling session")`. -/
theorem session_started_cancel_cex :
    ((witnessModel .sessionStarted).update .cancel).map
        (fun result => result.1.greetd_state)
      = some (.loading "Canceling session")
    ∧ (GreetdState.loading "Canceling session" : GreetdState Unit)
        ≠ .sessionStarted :=
  ⟨rfl, fun hco => GreetdState.noConfusion hco⟩

/-- C8 amended: reaching `SessionStarted` is irreversible in the sense that
no further block is spawned (no session request is ever sent over the
Connection again) and the controller never returns to a connection-holding
state: Cancel replaces the state with the `Loading("Canceling session")`
placeholder, Advance with `Loading("Authenticating")`, and every further
sequence of cancel/advance operations keeps the state in the
`SessionStarted`/`Loading` family while spawning nothing. -/
theorem session_started_no_further_requests {Conn : Type}
    (m : GreetdControls Conn) (h : m.greetd_state = .sessionStarted)
    (ops : List CtrlOp) :
    (∃ final, runOps m ops = some (final, [])
      ∧ final.greetd_state.inactive = true)
    ∧ m.update .cancel
        = some ({ m with reset_question_inputs_event := true,
                         just_switched_screens_event := false,
                         greetd_state := .loading "Canceling session" }, none,
                [.lockUserSelectors])
    ∧ (∀ credential, m.update (.advanceAuthentication credential)
        = some ({ m with reset_question_inputs_event := false,
                         just_switched_screens_event := false,
                         greetd_state := .loading "Authenticating" }, none,
                [.lockUserSelectors])) := by
  obtain ⟨gs, u, c, e, r, j⟩ := m
  replace h : gs = .sessionStarted := h
  subst h
  exact ⟨runOps_inactive ops _ rfl, rfl, fun credential => rfl⟩

/-- C8 witness: the Cancel step of the amended claim at a concrete model. -/
theorem session_started_no_further_requests_witness :
    (witnessModel .sessionStarted).update .cancel
      = some ({ witnessModel .sessionStarted with
                  reset_question_inputs_event := true,
                  just_switched_screens_event := false,
                  greetd_state := .loading "Canceling session" }, none,
              [.lockUserSelectors]) :=
  (session_started_no_further_requests (witnessModel .sessionStarted) rfl
    [.cancelOp, .advanceOp none]).2.1

/-- Helper for C9: the `retain` pass keeps pairwise-distinct usernames, all of
them outside the initial seen set. -/
theorem retainFresh_keys_spec (l : List (String × SessionIdOrCmdline)) :
    ∀ seen : List String,
      ((retainFresh seen l).map Prod.fst).Nodup
      ∧ ∀ u ∈ (retainFresh seen l).map Prod.fst, u ∉ seen := by
  induction l with
  | nil => intro seen; simp [retainFresh]
  | cons p rest ih =>
    intro seen
    obtain ⟨user, sess⟩ := p
    by_cases hu : user ∈ seen
    · simpa only [retainFresh, if_pos hu] using ih seen
    · simp only [retainFresh, if_neg hu, List.map_cons, List.nodup_cons]
      obtain ⟨hnd, hfresh⟩ := ih (user :: seen)
      refine ⟨⟨fun hmem => ?_, hnd⟩, ?_⟩
      · exact hfresh user hmem (List.mem_cons_self user seen)
      · intro u hu2
        rcases List.mem_cons.mp hu2 with h1 | h2
        · subst h1; exact hu
        · exact fun hus => hfresh u h2 (List.mem_cons_of_mem _ hus)

/-- Helper for C9: for a username outside the seen set, the `retain` pass
preserves the first matching entry — duplicates collapse to the
earliest-positioned (most recent) entry. -/
theorem retainFresh_find (l : List (String × SessionIdOrCmdline)) :
    ∀ (seen : List String) (username : String), username ∉ seen →
      (retainFresh seen l).find? (fun p => p.fst = username)
        = l.find? (fun p => p.fst = username) := by
  induction l with
  | nil => intro seen username _; rfl
  | cons p rest ih =>
    intro seen username h
    obtain ⟨user, sess⟩ := p
    by_cases hu : user ∈ seen
    · have hne : user ≠ username := fun he => h (he ▸ hu)
      rw [retainFresh, if_pos hu, ih seen username h,
        List.find?_cons_of_neg _ (by simp [hne])]
    · rw [retainFresh, if_neg hu]
      by_cases he : user = username
      · subst he
        rw [List.find?_cons_of_pos _ (by simp),
          List.find?_cons_of_pos _ (by simp)]
      · have hnotin : username ∉ user :: seen := by
          intro hx
          rcases List.mem_cons.mp hx with h1 | h2
          · exact he h1.symm
          · exact h h2
        rw [List.find?_cons_of_neg _ (by simp [he]),
          List.find?_cons_of_neg _ (by simp [he])]
        exact ih (user :: seen) username hnotin

/-- C9: the list persisted by `save` and returned by `load` (both apply
`dedup_user_to_last_sess` then `truncate(limit)`, embedded as
`Cache.normalize`) has pairwise-distinct usernames and length at most the
configured maximum; dedup collapses duplicate usernames to their
earliest-positioned (most recent) entry, preserving every username's
first-match lookup; and `set_last_login` inserts the new pair at the front
as the most recent entry, keeping usernames distinct. -/
theorem cache_dedup_truncate_invariant (cache : Cache) (limit : Nat)
    (username : String) (session : SessionIdOrCmdline) :
    ((cache.normalize limit).user_to_last_sess.map Prod.fst).Nodup
    ∧ (cache.normalize limit).user_to_last_sess.length ≤ limit
    ∧ (∀ u, cache.dedup_user_to_last_sess.last_user_session u
        = cache.last_user_session u)
    ∧ (cache.set_last_login username session).user_to_last_sess.head?
        = some (username, session)
    ∧ ((cache.set_last_login username session).user_to_last_sess.map
        Prod.fst).Nodup := by
  refine ⟨?_, ?_, ?_, ?_, ?_⟩
  · have hnd := (retainFresh_keys_spec cache.user_to_last_sess []).1
    rw [Cache.normalize]
    simp only [Cache.dedup_user_to_last_sess]
    rw [List.map_take]
    exact (List.take_sublist limit _).nodup hnd
  · rw [Cache.normalize]
    simp only [Cache.dedup_user_to_last_sess]
    exact List.length_take_le limit _
  · intro u
    rw [Cache.last_user_session, Cache.last_user_session,
      Cache.dedup_user_to_last_sess]
    rw [retainFresh_find cache.user_to_last_sess [] u (by simp)]
  · simp [Cache.set_last_login, Cache.dedup_user_to_last_sess, retainFresh]
  · have hnd := (retainFresh_keys_spec
      ((username, session) :: cache.user_to_last_sess) []).1
    simpa [Cache.set_last_login, Cache.dedup_user_to_last_sess] using hnd

end ReGreet
